import Mathlib

/-! Verification of the rule lookup and validation logic of the UPF repository.

The relational store backing the validation server is modelled as a list of
rows of the joined view imsi JOIN fseid JOIN pdr; the DB handle is an Except
value whose error case models an unreachable store (DB.Query returning a
non-nil err).  The gRPC collaborators of the client-side validation server
are modelled as functions into Option, where none models an RPC failure
(connection error, timeout, or a nil message field). -/

namespace UPF

/-- One row of the joined relational view imsi JOIN fseid JOIN pdr used by the
query in getData (Server/validation/database.go). -/
structure PdrRow where
  imsi_number : String
  fseid_value : String
  pdr_id : String
  dnn : String
  status : String
deriving DecidableEq, Repr

/-- contains checks if a string is present in a slice
(Server/validation/database.go, lines 32-39). -/
def contains : List String → String → Bool
  | [], _ => false
  | s :: rest, item => if s == item then true else contains rest item

/-- The row set produced by the SQL query of getData: all pdr rows joined to
the given imsi_number and having status active
(Server/validation/database.go, lines 45-51). -/
def query (rows : List PdrRow) (imsi : String) : List PdrRow :=
  rows.filter (fun r => r.imsi_number == imsi && r.status == "active")

/-- The row-scan loop of getData (Server/validation/database.go, lines 59-70):
a row with dnn equal to "ims" is appended to imsPdrs, every other row to
internetPdrs, in row order. -/
def classifyRows : List PdrRow → List String × List String
  | [] => ([], [])
  | r :: rest =>
    if r.dnn == "ims" then
      ((classifyRows rest).1, r.pdr_id :: (classifyRows rest).2)
    else
      (r.pdr_id :: (classifyRows rest).1, (classifyRows rest).2)

/-- getData retrieves PDR data for a given IMSI
(Server/validation/database.go, lines 42-73).  The DB handle is an Except
value: when the query errors, getData logs and returns (nil, nil), modelled
as two empty lists. -/
def getData (db : Except Unit (List PdrRow)) (imsi : String) :
    List String × List String :=
  match db with
  | .error _ => ([], [])
  | .ok rows => classifyRows (query rows imsi)

theorem classifyRows_fst (rows : List PdrRow) :
    (classifyRows rows).1 =
      (rows.filter (fun r => !(r.dnn == "ims"))).map (fun r => r.pdr_id) := by
  induction rows with
  | nil => rfl
  | cons r rest ih =>
    by_cases h : r.dnn = "ims" <;>
      simp [classifyRows, List.filter_cons, h, ih]

theorem classifyRows_snd (rows : List PdrRow) :
    (classifyRows rows).2 =
      (rows.filter (fun r => r.dnn == "ims")).map (fun r => r.pdr_id) := by
  induction rows with
  | nil => rfl
  | cons r rest ih =>
    by_cases h : r.dnn = "ims" <;>
      simp [classifyRows, List.filter_cons, h, ih]

theorem getData_mem (rows : List PdrRow) (imsi x : String) :
    (x ∈ (getData (.ok rows) imsi).1 ∨ x ∈ (getData (.ok rows) imsi).2) ↔
      ∃ r, r ∈ rows ∧ r.imsi_number = imsi ∧ r.status = "active" ∧
        r.pdr_id = x := by
  simp only [getData, classifyRows_fst, classifyRows_snd, query,
    List.mem_map, List.mem_filter, Bool.and_eq_true, beq_iff_eq,
    Bool.not_eq_true', beq_eq_false_iff_ne]
  constructor
  · rintro (⟨r, ⟨⟨hr, him, hst⟩, _⟩, hx⟩ | ⟨r, ⟨⟨hr, him, hst⟩, _⟩, hx⟩) <;>
      exact ⟨r, hr, him, hst, hx⟩
  · rintro ⟨r, hr, him, hst, hx⟩
    by_cases h : r.dnn = "ims"
    · exact Or.inr ⟨r, ⟨⟨hr, him, hst⟩, h⟩, hx⟩
    · exact Or.inl ⟨r, ⟨⟨hr, him, hst⟩, h⟩, hx⟩

/-- Rule represents the PDR and DNN information of a validation request
(unnamed/part_001, lines 10-14). -/
structure Rule where
  pdr_id : String
  dnn : String
deriving DecidableEq, Repr

/-- RequestData represents the incoming request structure
(unnamed/part_001, lines 16-20). -/
structure RequestData where
  imsi : String
  rules : Rule
deriving DecidableEq, Repr

/-- The three ways processValidation in unnamed/part_001 answers: the HTTP 400
missing_parameters rejection, the HTTP 200 success reply with message
"PDR found" carrying the found_in class, and the HTTP 404 not_found reply. -/
inductive Status001 where
  | missingParameters
  | pdrFound (found_in : String)
  | pdrNotFound
deriving DecidableEq, Repr

/-- The observable result of processValidation in unnamed/part_001: the
outcome, the optional InternetPDRs and IMSPDRs fields of the JSON reply
(omitempty fields that this handler never sets), and the number of getData
calls performed while handling the request. -/
structure Response001 where
  outcome : Status001
  internetPDRs : Option (List String)
  imsPDRs : Option (List String)
  storeCalls : Nat
deriving DecidableEq, Repr

/-- processValidation (unnamed/part_001, lines 121-164): reject when imsi,
rules.pdr_id or rules.dnn is empty, without calling getData; otherwise fetch
the two classified sets and report success with found_in "internet" when the
pdr id is in the internet list, success with found_in "ims" when it is in the
ims list, and not_found otherwise.  None of these replies sets the
InternetPDRs or IMSPDRs response fields. -/
def processValidation (db : Except Unit (List PdrRow))
    (request : RequestData) : Response001 :=
  if request.imsi == "" || request.rules.pdr_id == "" ||
      request.rules.dnn == "" then
    ⟨.missingParameters, none, none, 0⟩
  else
    if contains (getData db request.imsi).1 request.rules.pdr_id then
      ⟨.pdrFound "internet", none, none, 1⟩
    else if contains (getData db request.imsi).2 request.rules.pdr_id then
      ⟨.pdrFound "ims", none, none, 1⟩
    else
      ⟨.pdrNotFound, none, none, 1⟩

/-- IMSIStruct: the internet and IMS session identifiers of a subscriber as
returned by the IMSI agent (Server/imsi/imsi-agent.go). -/
structure IMSIStruct where
  internet : String
  ims : String
deriving DecidableEq, Repr

/-- The replies of the client /validate handler in unnamed/part_004
(lines 695-749): 200 with status "Correct Results", 400 with error
"PDR exists but DNN mismatch" carrying the class the pdr was found in, and
400 with error "PDR not found". -/
inductive ClientOutcome where
  | correctResults (found_in : String)
  | dnnMismatch (found_in : String)
  | pdrMissing
deriving DecidableEq, Repr

/-- The decision logic of the client /validate handler
(unnamed/part_004, lines 704-745), on the two classified sets: the two
membership loops followed by the four-branch if chain. -/
def decideValidation (internetPdrs imsPdrs : List String)
    (pdrId dnn : String) : ClientOutcome :=
  if contains internetPdrs pdrId && dnn == "internet" then
    .correctResults "internet"
  else if contains imsPdrs pdrId && dnn == "ims" then
    .correctResults "ims"
  else if contains internetPdrs pdrId || contains imsPdrs pdrId then
    .dnnMismatch (if contains internetPdrs pdrId then "internet" else "ims")
  else
    .pdrMissing

/-- getData of the client (unnamed/part_004, lines 615-678).  imsiDir models
the GetIMSI call (none: connection error, RPC error, or an empty reply list,
each of which makes the Go code return nil, nil).  ruleStore models the
GetRule call per session key (none: RPC error or a nil Session or Pdr field,
which leaves the corresponding slice nil).  A session key equal to the empty
string is skipped. -/
def getDataClient (imsiDir : String → Option IMSIStruct)
    (ruleStore : String → Option (List String)) (imsi : String) :
    List String × List String :=
  match imsiDir imsi with
  | none => ([], [])
  | some data =>
    (if data.internet ≠ "" then
      match ruleStore data.internet with
      | some pdrs => pdrs
      | none => []
    else [],
    if data.ims ≠ "" then
      match ruleStore data.ims with
      | some pdrs => pdrs
      | none => []
    else [])

/-- The client /validate handler after JSON binding
(unnamed/part_004, lines 695-749): resolve the subscriber through getData,
then decide. -/
def validateClient (imsiDir : String → Option IMSIStruct)
    (ruleStore : String → Option (List String))
    (request : RequestData) : ClientOutcome :=
  decideValidation (getDataClient imsiDir ruleStore request.imsi).1
    (getDataClient imsiDir ruleStore request.imsi).2
    request.rules.pdr_id request.rules.dnn

/-- The row-scan loop of getData in the standalone Validation Server
(unnamed/part_005, lines 131-140): dnn "internet" rows go to internetPdrs,
dnn "ims" rows to imsPdrs, and rows with any other dnn are dropped. -/
def classifyRows005 : List PdrRow → List String × List String
  | [] => ([], [])
  | r :: rest =>
    if r.dnn == "internet" then
      (r.pdr_id :: (classifyRows005 rest).1, (classifyRows005 rest).2)
    else if r.dnn == "ims" then
      ((classifyRows005 rest).1, r.pdr_id :: (classifyRows005 rest).2)
    else
      classifyRows005 rest

/-- getData of the standalone Validation Server
(unnamed/part_005, lines 114-142); same query as database.go, different
row classification. -/
def getData005 (db : Except Unit (List PdrRow)) (imsi : String) :
    List String × List String :=
  match db with
  | .error _ => ([], [])
  | .ok rows => classifyRows005 (query rows imsi)

/-- The replies of processValidation in unnamed/part_005: the 404
ErrorResponse (which has no PDR list fields), and the 200 ValidationResponse
carrying status, found_in and both classified sets. -/
inductive Response005 where
  | validationFailed (message : String)
  | okResponse (status found_in : String)
      (internetPDRs imsPDRs : List String)
deriving DecidableEq, Repr

/-- processValidation of the standalone Validation Server
(unnamed/part_005, lines 169-208): when both classified sets are empty,
answer 404 with message "No PDRs found for the given IMSI"; otherwise answer
200 with status "Found" and found_in equal to the requested dnn when the
requested class contains the pdr id, and status "Not Found" otherwise, in
both cases carrying the two classified sets. -/
def processValidation005 (db : Except Unit (List PdrRow))
    (request : RequestData) : Response005 :=
  if (getData005 db request.imsi).1.length == 0 &&
      (getData005 db request.imsi).2.length == 0 then
    .validationFailed "No PDRs found for the given IMSI"
  else
    if (request.rules.dnn == "internet" &&
          contains (getData005 db request.imsi).1 request.rules.pdr_id) ||
        (request.rules.dnn == "ims" &&
          contains (getData005 db request.imsi).2 request.rules.pdr_id) then
      .okResponse "Found" request.rules.dnn
        (getData005 db request.imsi).1 (getData005 db request.imsi).2
    else
      .okResponse "Not Found" ""
        (getData005 db request.imsi).1 (getData005 db request.imsi).2

/-- Pdrstruct of the rule agent (unnamed/part_002, lines 29-32): the list of
PDR identifiers of a session and the session key. -/
structure Pdrstruct where
  pdr_id : List String
  fsied : String
deriving DecidableEq, Repr

/-- Farstruct of the rule agent (unnamed/part_002, lines 35-38). -/
structure Farstruct where
  far_id : String
  fsied : String
deriving DecidableEq, Repr

/-- Qerstruct of the rule agent (unnamed/part_002, lines 41-44). -/
structure Qerstruct where
  qer_id : String
  fsied : String
deriving DecidableEq, Repr

/-- Urrstruct of the rule agent (unnamed/part_002, lines 47-50). -/
structure Urrstruct where
  urr_id : String
  fsied : String
deriving DecidableEq, Repr

/-- Sessions: the complete rule bundle of one session
(unnamed/part_002, lines 21-26). -/
structure Sessions where
  pdr : Pdrstruct
  far : Farstruct
  qer : Qerstruct
  urr : Urrstruct
deriving DecidableEq, Repr

/-- The session field of a RuleReply (protobuf rulestruct). -/
structure Rulestruct where
  pdr : Pdrstruct
  far : Farstruct
  qer : Qerstruct
  urr : Urrstruct
deriving DecidableEq, Repr

/-- RuleReply of the rule agent (protobuf message). -/
structure RuleReply where
  session : Rulestruct
deriving DecidableEq, Repr

/-- GetRule of the rule agent (unnamed/part_002, lines 106-134; likewise
Server/rule/rule-agent.go, lines 49-77): look the session key up in the map;
when absent answer the gRPC NotFound error, otherwise answer the full rule
bundle of the session. -/
def GetRule (session : String → Option Sessions) (fsied : String) :
    Except String RuleReply :=
  match session fsied with
  | none => .error "Session not found"
  | some s =>
    .ok ⟨⟨⟨s.pdr.pdr_id, s.pdr.fsied⟩, ⟨s.far.far_id, s.far.fsied⟩,
      ⟨s.qer.qer_id, s.qer.fsied⟩, ⟨s.urr.urr_id, s.urr.fsied⟩⟩⟩

/-- The three active rows of the scenario subscriber S1: internet session
with PDRs p1 and p2, ims session with PDR p3. -/
def dbS1 : List PdrRow :=
  [⟨"S1", "fseid1", "p1", "internet", "active"⟩,
   ⟨"S1", "fseid1", "p2", "internet", "active"⟩,
   ⟨"S1", "fseid2", "p3", "ims", "active"⟩]

/-- A store with one inactive row (p9) next to two active ones. -/
def dbMixed : List PdrRow :=
  [⟨"S1", "fseid1", "p1", "internet", "active"⟩,
   ⟨"S1", "fseid1", "p9", "internet", "inactive"⟩,
   ⟨"S1", "fseid2", "p3", "ims", "active"⟩]

/-- A subscriber directory holding the single subscriber IMSI1 with internet
session fseid1 and ims session fseid2. -/
def imsiDirS1 : String → Option IMSIStruct :=
  fun imsi => if imsi == "IMSI1" then some ⟨"fseid1", "fseid2"⟩ else none

/-- A rule store on which every session resolution fails. -/
def ruleStoreAllFail : String → Option (List String) :=
  fun _ => none

/-- A rule store on which the internet session fseid1 resolves to p1 and p2
while every other session resolution (in particular the ims session fseid2)
fails. -/
def ruleStoreImsDown : String → Option (List String) :=
  fun fsied => if fsied == "fseid1" then some ["p1", "p2"] else none

/-- A rule store on which the ims session fseid2 resolves to p3 while every
other session resolution (in particular the internet session fseid1)
fails. -/
def ruleStoreInternetDown : String → Option (List String) :=
  fun fsied => if fsied == "fseid2" then some ["p3"] else none

/-- A session store with a two-PDR session fseid1 and a session fseid0 whose
rule bundle holds zero PDR identifiers. -/
def sessionStoreW : String → Option Sessions :=
  fun fsied =>
    if fsied == "fseid1" then
      some ⟨⟨["pdr1", "pdr2"], "fseid1"⟩, ⟨"far1", "fseid1"⟩,
        ⟨"qer1", "fseid1"⟩, ⟨"urr1", "fseid1"⟩⟩
    else if fsied == "fseid0" then
      some ⟨⟨[], "fseid0"⟩, ⟨"far0", "fseid0"⟩,
        ⟨"qer0", "fseid0"⟩, ⟨"urr0", "fseid0"⟩⟩
    else none

/-- C1: counterexample.  Against subscriber S1, whose classified sets are
internet [p1, p2] and ims [p3], the claim says validating (p1, ims) yields
ClassMismatch; the processValidation handler of unnamed/part_001 (one of the
two cited decision procedures) instead answers the HTTP 200 success reply
"PDR found" with found_in internet, collapsing the decision to
found versus not found. -/
theorem C1_counterexample :
    getData (.ok dbS1) "S1" = (["p1", "p2"], ["p3"]) ∧
    processValidation (.ok dbS1) ⟨"S1", ⟨"p1", "ims"⟩⟩ =
      ⟨.pdrFound "internet", none, none, 1⟩ :=
  ⟨rfl, rfl⟩

/-- C1 (amended): for the client-side validation server of unnamed/part_004
the decision is three-way over the classified sets exactly as claimed: Correct
when the pdr id is in the set of the claimed class, DNN mismatch naming the
other class when it is only in the other set, and PDR not found otherwise;
at the scenario sets internet [p1, p2] and ims [p3] it answers Correct for
(p1, internet), mismatch for (p1, ims) and not found for (p9, internet).
The server-side processValidation of unnamed/part_001 does not implement the
three-way split (see the counterexample). -/
theorem C1_threeway_decision (internetPdrs imsPdrs : List String)
    (pdrId dnn : String) (hdnn : dnn = "internet" ∨ dnn = "ims") :
    (decideValidation internetPdrs imsPdrs pdrId dnn =
      if contains (if dnn = "internet" then internetPdrs else imsPdrs) pdrId
      then ClientOutcome.correctResults dnn
      else if contains (if dnn = "internet" then imsPdrs else internetPdrs)
          pdrId then
        ClientOutcome.dnnMismatch
          (if dnn = "internet" then "ims" else "internet")
      else ClientOutcome.pdrMissing) ∧
    decideValidation ["p1", "p2"] ["p3"] "p1" "internet" =
      .correctResults "internet" ∧
    decideValidation ["p1", "p2"] ["p3"] "p1" "ims" =
      .dnnMismatch "internet" ∧
    decideValidation ["p1", "p2"] ["p3"] "p9" "internet" = .pdrMissing := by
  refine ⟨?_, rfl, rfl, rfl⟩
  rcases hdnn with h | h <;> subst h <;>
    cases h1 : contains internetPdrs pdrId <;>
    cases h2 : contains imsPdrs pdrId <;>
    simp [decideValidation, h1, h2]

/-- C1 witness: the three-way decision theorem applied at the concrete
scenario input (p1, ims). -/
theorem C1_threeway_decision_witness :
    (("ims" : String) = "internet" ∨ ("ims" : String) = "ims") ∧
    decideValidation ["p1", "p2"] ["p3"] "p1" "ims" =
      .dnnMismatch "internet" :=
  ⟨Or.inr rfl,
   (C1_threeway_decision ["p1", "p2"] ["p3"] "p1" "ims" (Or.inr rfl)).2.2.1⟩

/-- C2: for every store content, subscriber and identifier, the identifier is
in the union of the internet and ims sets produced by getData exactly when
some row of that subscriber with status active carries it: no extras and no
omissions. -/
theorem C2_union_exact (rows : List PdrRow) (imsi x : String) :
    (x ∈ (getData (.ok rows) imsi).1 ∨ x ∈ (getData (.ok rows) imsi).2) ↔
      ∃ r, r ∈ rows ∧ r.imsi_number = imsi ∧ r.status = "active" ∧
        r.pdr_id = x :=
  getData_mem rows imsi x

/-- C3: a validation request with an empty imsi, pdr id or dnn is rejected as
missing_parameters (HTTP 400) and getData is never called (zero store
accesses). -/
theorem C3_missing_field (db : Except Unit (List PdrRow))
    (request : RequestData)
    (h : request.imsi = "" ∨ request.rules.pdr_id = "" ∨
      request.rules.dnn = "") :
    processValidation db request = ⟨.missingParameters, none, none, 0⟩ := by
  unfold processValidation
  rcases h with h | h | h <;> simp [h]

/-- C3 witness: the empty pdr id of scenario C. -/
theorem C3_missing_field_witness :
    (("S1" : String) = "" ∨ ("" : String) = "" ∨
      ("internet" : String) = "") ∧
    processValidation (.ok dbS1) ⟨"S1", ⟨"", "internet"⟩⟩ =
      ⟨.missingParameters, none, none, 0⟩ :=
  ⟨Or.inr (Or.inl rfl),
   C3_missing_field (.ok dbS1) ⟨"S1", ⟨"", "internet"⟩⟩
     (Or.inr (Or.inl rfl))⟩

/-- C4: counterexample.  With the backing store unreachable (the query
errors), getData returns two empty sets and processValidation answers the
HTTP 404 not_found reply: the store error is reported as NotFound, and no
Unavailable outcome exists in the code, contradicting the claim that a store
error is never reported as NotFound. -/
theorem C4_counterexample :
    processValidation (.error ()) ⟨"IMSI1", ⟨"pdr1", "internet"⟩⟩ =
      ⟨.pdrNotFound, none, none, 1⟩ :=
  rfl

/-- C4 (amended): store-level errors are swallowed at the getData boundary:
when the query errors, getData returns two empty sets, and every well-formed
validation request against the unreachable store is answered with the
not_found business outcome; there is no distinct Unavailable outcome. -/
theorem C4_store_error_notfound (request : RequestData)
    (h1 : request.imsi ≠ "") (h2 : request.rules.pdr_id ≠ "")
    (h3 : request.rules.dnn ≠ "") :
    getData (.error ()) request.imsi = ([], []) ∧
    processValidation (.error ()) request =
      ⟨.pdrNotFound, none, none, 1⟩ := by
  refine ⟨rfl, ?_⟩
  unfold processValidation
  simp [getData, contains, h1, h2, h3]

/-- C4 witness: a concrete well-formed request against the erroring store. -/
theorem C4_store_error_notfound_witness :
    (("IMSI1" : String) ≠ "" ∧ ("pdr1" : String) ≠ "" ∧
      ("internet" : String) ≠ "") ∧
    processValidation (.error ()) ⟨"IMSI1", ⟨"pdr1", "internet"⟩⟩ =
      ⟨.pdrNotFound, none, none, 1⟩ :=
  ⟨⟨by decide, by decide, by decide⟩,
   (C4_store_error_notfound ⟨"IMSI1", ⟨"pdr1", "internet"⟩⟩
     (by decide) (by decide) (by decide)).2⟩

/-- C5: counterexample.  When both session resolutions fail, the client
getData returns two empty sets and the /validate handler answers
"PDR not found" (HTTP 400), not a distinct Unavailable outcome: no
Unavailable outcome exists in the code, contradicting the part of the claim
that makes the whole-call outcome Unavailable when both resolutions fail. -/
theorem C5_counterexample :
    getDataClient imsiDirS1 ruleStoreAllFail "IMSI1" = ([], []) ∧
    validateClient imsiDirS1 ruleStoreAllFail
      ⟨"IMSI1", ⟨"p1", "internet"⟩⟩ = .pdrMissing :=
  ⟨rfl, rfl⟩

/-- C5 (amended): a failing session resolution in either direction does not
fail the request: when the ims session resolution fails while the internet
one succeeds, the classified sets are the internet PDR list and an empty ims
list; symmetrically, when the internet session resolution fails while the
ims one succeeds, the sets are an empty internet list and the ims PDR list;
in both cases the outcome is computed from these sets by the ordinary
decision.  When both resolutions fail the sets are both empty and the
outcome is "PDR not found" for every request, never a distinct
Unavailable. -/
theorem C5_graceful_degradation (imsiDir : String → Option IMSIStruct)
    (ruleStore : String → Option (List String)) (imsi : String)
    (data : IMSIStruct)
    (hdir : imsiDir imsi = some data)
    (hint : data.internet ≠ "") (hims : data.ims ≠ "") :
    (∀ ps, ruleStore data.internet = some ps → ruleStore data.ims = none →
      getDataClient imsiDir ruleStore imsi = (ps, []) ∧
      ∀ pdrId dnn,
        validateClient imsiDir ruleStore ⟨imsi, ⟨pdrId, dnn⟩⟩ =
          decideValidation ps [] pdrId dnn) ∧
    (∀ qs, ruleStore data.ims = some qs →
      ruleStore data.internet = none →
      getDataClient imsiDir ruleStore imsi = ([], qs) ∧
      ∀ pdrId dnn,
        validateClient imsiDir ruleStore ⟨imsi, ⟨pdrId, dnn⟩⟩ =
          decideValidation [] qs pdrId dnn) ∧
    (ruleStore data.internet = none → ruleStore data.ims = none →
      getDataClient imsiDir ruleStore imsi = ([], []) ∧
      ∀ pdrId dnn,
        validateClient imsiDir ruleStore ⟨imsi, ⟨pdrId, dnn⟩⟩ =
          .pdrMissing) := by
  refine ⟨?_, ?_, ?_⟩
  · intro ps hok hfail
    have hget : getDataClient imsiDir ruleStore imsi = (ps, []) := by
      unfold getDataClient
      rw [hdir]
      simp [hint, hims, hok, hfail]
    exact ⟨hget, fun pdrId dnn => by simp [validateClient, hget]⟩
  · intro qs hok hfail
    have hget : getDataClient imsiDir ruleStore imsi = ([], qs) := by
      unfold getDataClient
      rw [hdir]
      simp [hint, hims, hok, hfail]
    exact ⟨hget, fun pdrId dnn => by simp [validateClient, hget]⟩
  · intro hfail1 hfail2
    have hget : getDataClient imsiDir ruleStore imsi = ([], []) := by
      unfold getDataClient
      rw [hdir]
      simp [hint, hims, hfail1, hfail2]
    refine ⟨hget, fun pdrId dnn => ?_⟩
    simp [validateClient, hget, decideValidation, contains]

/-- C5 witness: scenario D in both directions for subscriber IMSI1 (ims
session down with internet resolving to p1 and p2, then internet session
down with ims resolving to p3), plus the both-sessions-down case. -/
theorem C5_graceful_degradation_witness :
    getDataClient imsiDirS1 ruleStoreImsDown "IMSI1" = (["p1", "p2"], []) ∧
    validateClient imsiDirS1 ruleStoreImsDown
      ⟨"IMSI1", ⟨"p1", "internet"⟩⟩ =
        decideValidation ["p1", "p2"] [] "p1" "internet" ∧
    getDataClient imsiDirS1 ruleStoreInternetDown "IMSI1" = ([], ["p3"]) ∧
    validateClient imsiDirS1 ruleStoreInternetDown
      ⟨"IMSI1", ⟨"p3", "ims"⟩⟩ = decideValidation [] ["p3"] "p3" "ims" ∧
    validateClient imsiDirS1 ruleStoreAllFail
      ⟨"IMSI1", ⟨"p1", "internet"⟩⟩ = .pdrMissing :=
  ⟨((C5_graceful_degradation imsiDirS1 ruleStoreImsDown "IMSI1"
      ⟨"fseid1", "fseid2"⟩ rfl (by decide) (by decide)).1
      ["p1", "p2"] rfl rfl).1,
   ((C5_graceful_degradation imsiDirS1 ruleStoreImsDown "IMSI1"
      ⟨"fseid1", "fseid2"⟩ rfl (by decide) (by decide)).1
      ["p1", "p2"] rfl rfl).2 "p1" "internet",
   ((C5_graceful_degradation imsiDirS1 ruleStoreInternetDown "IMSI1"
      ⟨"fseid1", "fseid2"⟩ rfl (by decide) (by decide)).2.1
      ["p3"] rfl rfl).1,
   ((C5_graceful_degradation imsiDirS1 ruleStoreInternetDown "IMSI1"
      ⟨"fseid1", "fseid2"⟩ rfl (by decide) (by decide)).2.1
      ["p3"] rfl rfl).2 "p3" "ims",
   ((C5_graceful_degradation imsiDirS1 ruleStoreAllFail "IMSI1"
      ⟨"fseid1", "fseid2"⟩ rfl (by decide) (by decide)).2.2
      rfl rfl).2 "p1" "internet"⟩

/-- C6: for an unknown subscriber (equivalently one with no provisioned
rows), getData returns two empty sets rather than an error, and a well-formed
validation of any rule identifier against such a subscriber is answered with
the not_found outcome, the computed classified sets being both empty. -/
theorem C6_unknown_subscriber (rows : List PdrRow) (request : RequestData)
    (hunknown : ∀ r, r ∈ rows → r.imsi_number ≠ request.imsi)
    (h1 : request.imsi ≠ "") (h2 : request.rules.pdr_id ≠ "")
    (h3 : request.rules.dnn ≠ "") :
    getData (.ok rows) request.imsi = ([], []) ∧
    processValidation (.ok rows) request =
      ⟨.pdrNotFound, none, none, 1⟩ := by
  have hq : query rows request.imsi = [] := by
    simp only [query, List.filter_eq_nil_iff]
    intro r hr
    simp [hunknown r hr]
  have hget : getData (.ok rows) request.imsi = ([], []) := by
    simp [getData, hq, classifyRows]
  refine ⟨hget, ?_⟩
  unfold processValidation
  simp [hget, contains, h1, h2, h3]

/-- C6 witness: scenario B, subscriber S2 with no provisioned rows in the
scenario store. -/
theorem C6_unknown_subscriber_witness :
    (∀ r, r ∈ dbS1 → r.imsi_number ≠ ("S2" : String)) ∧
    getData (.ok dbS1) "S2" = ([], []) ∧
    processValidation (.ok dbS1) ⟨"S2", ⟨"p1", "internet"⟩⟩ =
      ⟨.pdrNotFound, none, none, 1⟩ :=
  ⟨by decide,
   C6_unknown_subscriber dbS1 ⟨"S2", ⟨"p1", "internet"⟩⟩ (by decide)
     (by decide) (by decide) (by decide)⟩

/-- C7: GetRule signals the NotFound error exactly when no session with the
requested key is in the store, and for a present session it returns the full
rule bundle, including when the bundle holds zero PDR identifiers (an empty
bundle is a successful reply, not an error). -/
theorem C7_getrule_notfound (store : String → Option Sessions)
    (fsied : String) :
    ((∃ e, GetRule store fsied = .error e) ↔ store fsied = none) ∧
    ∀ s, store fsied = some s →
      GetRule store fsied = .ok ⟨⟨⟨s.pdr.pdr_id, s.pdr.fsied⟩,
        ⟨s.far.far_id, s.far.fsied⟩, ⟨s.qer.qer_id, s.qer.fsied⟩,
        ⟨s.urr.urr_id, s.urr.fsied⟩⟩⟩ := by
  constructor
  · constructor
    · rintro ⟨e, he⟩
      cases h : store fsied with
      | none => rfl
      | some s => simp [GetRule, h] at he
    · intro h
      exact ⟨"Session not found", by simp [GetRule, h]⟩
  · intro s h
    simp [GetRule, h]

/-- C7 witness: a two-PDR session, a zero-PDR session and an absent key in
the concrete session store. -/
theorem C7_getrule_notfound_witness :
    GetRule sessionStoreW "fseid1" =
      .ok ⟨⟨⟨["pdr1", "pdr2"], "fseid1"⟩, ⟨"far1", "fseid1"⟩,
        ⟨"qer1", "fseid1"⟩, ⟨"urr1", "fseid1"⟩⟩⟩ ∧
    GetRule sessionStoreW "fseid0" =
      .ok ⟨⟨⟨[], "fseid0"⟩, ⟨"far0", "fseid0"⟩,
        ⟨"qer0", "fseid0"⟩, ⟨"urr0", "fseid0"⟩⟩⟩ ∧
    (∃ e, GetRule sessionStoreW "fseid9" = .error e) :=
  ⟨(C7_getrule_notfound sessionStoreW "fseid1").2
      ⟨⟨["pdr1", "pdr2"], "fseid1"⟩, ⟨"far1", "fseid1"⟩,
        ⟨"qer1", "fseid1"⟩, ⟨"urr1", "fseid1"⟩⟩ rfl,
   (C7_getrule_notfound sessionStoreW "fseid0").2
      ⟨⟨[], "fseid0"⟩, ⟨"far0", "fseid0"⟩,
        ⟨"qer0", "fseid0"⟩, ⟨"urr0", "fseid0"⟩⟩ rfl,
   (C7_getrule_notfound sessionStoreW "fseid9").1.mpr rfl⟩

/-- C8: counterexample.  processValidation of unnamed/part_001 answers the
success reply "PDR found" (a non-MissingField outcome) with both classified
set fields of the response unset, contradicting the claim that every
non-MissingField response includes the classified sets. -/
theorem C8_counterexample :
    (processValidation (.ok dbS1) ⟨"S1", ⟨"p1", "internet"⟩⟩).outcome =
      .pdrFound "internet" ∧
    (processValidation (.ok dbS1)
      ⟨"S1", ⟨"p1", "internet"⟩⟩).internetPDRs = none ∧
    (processValidation (.ok dbS1) ⟨"S1", ⟨"p1", "internet"⟩⟩).imsPDRs =
      none :=
  ⟨rfl, rfl, rfl⟩

/-- C8 (amended): the standalone Validation Server of unnamed/part_005
includes both classified sets in each of its 200 responses, and it gives such
a response whenever at least one classified set is non-empty; its 404 error
reply (given exactly when both sets are empty) and all replies of
processValidation in unnamed/part_001 carry no classified set fields. -/
theorem C8_sets_in_response (db : Except Unit (List PdrRow))
    (request : RequestData) :
    (∀ st fi ip ims,
      processValidation005 db request = .okResponse st fi ip ims →
      ip = (getData005 db request.imsi).1 ∧
        ims = (getData005 db request.imsi).2) ∧
    ((getData005 db request.imsi).1 ≠ [] ∨
        (getData005 db request.imsi).2 ≠ [] →
      ∃ st fi, processValidation005 db request =
        .okResponse st fi (getData005 db request.imsi).1
          (getData005 db request.imsi).2) ∧
    (processValidation db request).internetPDRs = none ∧
    (processValidation db request).imsPDRs = none := by
  refine ⟨?_, ?_, ?_, ?_⟩
  · intro st fi ip ims h
    unfold processValidation005 at h
    split at h
    · cases h
    · split at h <;>
      · injection h with h1 h2 h3 h4
        exact ⟨h3.symm, h4.symm⟩
  · intro hne
    unfold processValidation005
    split
    · rename_i hcond
      exfalso
      simp only [Bool.and_eq_true, beq_iff_eq, List.length_eq_zero]
        at hcond
      rcases hne with hne | hne
      · exact hne hcond.1
      · exact hne hcond.2
    · split
      · exact ⟨"Found", request.rules.dnn, rfl⟩
      · exact ⟨"Not Found", "", rfl⟩
  · unfold processValidation
    repeat' split
    all_goals rfl
  · unfold processValidation
    repeat' split
    all_goals rfl

/-- C8 witness: subscriber S1, whose sets are non-empty, answered by the
part_005 server with both sets and by the part_001 handler with neither. -/
theorem C8_sets_in_response_witness :
    ((getData005 (.ok dbS1) "S1").1 ≠ [] ∨
      (getData005 (.ok dbS1) "S1").2 ≠ []) ∧
    (∃ st fi, processValidation005 (.ok dbS1) ⟨"S1", ⟨"p1", "internet"⟩⟩ =
      .okResponse st fi ["p1", "p2"] ["p3"]) ∧
    (processValidation (.ok dbS1)
      ⟨"S1", ⟨"p1", "internet"⟩⟩).internetPDRs = none :=
  ⟨Or.inl (by decide),
   (C8_sets_in_response (.ok dbS1) ⟨"S1", ⟨"p1", "internet"⟩⟩).2.1
     (Or.inl (by decide)),
   (C8_sets_in_response (.ok dbS1) ⟨"S1", ⟨"p1", "internet"⟩⟩).2.2.1⟩

/-- C9: every identifier in either classified set originates from a row of
the queried subscriber whose status is active (in particular not inactive):
inactive rows are never visible in a resolution result. -/
theorem C9_active_only (rows : List PdrRow) (imsi x : String)
    (hx : x ∈ (getData (.ok rows) imsi).1 ∨
      x ∈ (getData (.ok rows) imsi).2) :
    ∃ r, r ∈ rows ∧ r.status = "active" ∧ r.status ≠ "inactive" ∧
      r.imsi_number = imsi ∧ r.pdr_id = x := by
  obtain ⟨r, hr, him, hst, hp⟩ := (getData_mem rows imsi x).mp hx
  exact ⟨r, hr, hst, by simp [hst], him, hp⟩

/-- C9 witness: in the mixed store the inactive row p9 is dropped and the
reported identifier p1 comes from an active row. -/
theorem C9_active_only_witness :
    getData (.ok dbMixed) "S1" = (["p1"], ["p3"]) ∧
    ("p1" ∈ (getData (.ok dbMixed) "S1").1 ∨
      "p1" ∈ (getData (.ok dbMixed) "S1").2) ∧
    ∃ r, r ∈ dbMixed ∧ r.status = "active" ∧ r.status ≠ "inactive" ∧
      r.imsi_number = "S1" ∧ r.pdr_id = "p1" :=
  ⟨rfl, Or.inl (by decide),
   C9_active_only dbMixed "S1" "p1" (Or.inl (by decide))⟩

/-- C10: the else branch of the row classification sends every active row of
the subscriber whose dnn is not exactly "ims" to the internet set, and the
two classified sets are the images of the two complementary dnn filters of
the queried active rows: together they partition all active PDR rows of the
subscriber. -/
theorem C10_else_branch_partition (rows : List PdrRow) (imsi : String) :
    (getData (.ok rows) imsi).1 =
      ((query rows imsi).filter (fun r => !(r.dnn == "ims"))).map
        (fun r => r.pdr_id) ∧
    (getData (.ok rows) imsi).2 =
      ((query rows imsi).filter (fun r => r.dnn == "ims")).map
        (fun r => r.pdr_id) ∧
    ∀ r, r ∈ rows → r.imsi_number = imsi → r.status = "active" →
      r.dnn ≠ "ims" → r.pdr_id ∈ (getData (.ok rows) imsi).1 := by
  refine ⟨classifyRows_fst (query rows imsi),
    classifyRows_snd (query rows imsi), ?_⟩
  intro r hr him hst hdnn
  simp only [getData, classifyRows_fst, query, List.mem_map,
    List.mem_filter, Bool.and_eq_true, beq_iff_eq, Bool.not_eq_true',
    beq_eq_false_iff_ne]
  exact ⟨r, ⟨⟨hr, him, hst⟩, hdnn⟩, rfl⟩

/-- C10 witness: in the mixed store the active internet row p1 lands in the
internet set. -/
theorem C10_else_branch_partition_witness :
    (getData (.ok dbMixed) "S1").1 = ["p1"] ∧
    (⟨"S1", "fseid1", "p1", "internet", "active"⟩ : PdrRow) ∈ dbMixed ∧
    "p1" ∈ (getData (.ok dbMixed) "S1").1 :=
  ⟨by decide, by decide,
   (C10_else_branch_partition dbMixed "S1").2.2
     ⟨"S1", "fseid1", "p1", "internet", "active"⟩ (by decide) rfl rfl
     (by decide)⟩

end UPF
